import Mathlib

/-!
# Verification of the unifi_exporter collector/exporter core

A shallow embedding, in Lean, of the collector/exporter core of the
`unifi_exporter` repository (package `unifiexporter` plus the vendored
`unifi` controller-client data mapping), together with theorems settling
the specification claims about it.

Conventions of the embedding:
* Go `float64` metric values are modelled as exact rationals (`ℚ`);
  the claims under study concern which representations are accepted and
  whether values are carried through unchanged, not IEEE rounding.
* Fallible Go code (`error` returns) is modelled with `Except`/`Option`;
  a Go runtime panic (nil-pointer dereference, index out of range) is
  modelled as `none` of an `Option`, and `log.Fatalf` (process exit) as a
  distinguished outcome constructor.
* Prometheus metric emission is modelled as lists of `Sample` values
  (metric name, label values in declaration order, numeric value).
-/

namespace UnifiExporter

/-- One Prometheus sample: fully-qualified metric name, label values in the
order of the metric's declared label names, and its numeric value. -/
structure Sample where
  metric : String
  labels : List String
  value : ℚ
deriving DecidableEq, Repr

/-- A UniFi site (vendored `unifi.Site`): `name` is the internal key used in
API calls, `description` the human label. -/
structure Site where
  name : String
  description : String
deriving DecidableEq, Repr

/-! ## Model of Go `net.ParseMAC` and `net.HardwareAddr.String`

`Device.UnmarshalJSON` and `Station.UnmarshalJSON` parse hardware addresses
with `net.ParseMAC`; the collectors render them with `HardwareAddr.String`.
The model follows the Go standard-library implementation: an address is a
list of bytes; parsing accepts `:`/`-`-separated two-digit groups of total
length 6, 8 or 20 bytes, and `.`-separated four-digit groups. -/

/-- Value of one hexadecimal digit (Go `xtoi`, single digit). -/
def hexVal (c : Char) : Option Nat :=
  if '0' ≤ c ∧ c ≤ '9' then some (c.toNat - '0'.toNat)
  else if 'a' ≤ c ∧ c ≤ 'f' then some (c.toNat - 'a'.toNat + 10)
  else if 'A' ≤ c ∧ c ≤ 'F' then some (c.toNat - 'A'.toNat + 10)
  else none

/-- Go `xtoi2`: convert the first two characters of `s` as a hex byte,
requiring the third character (when present and when a separator `e` is
expected) to be the separator. -/
def xtoi2 (s : List Char) (e : Option Char) : Option Nat :=
  match s with
  | c1 :: c2 :: rest =>
    match hexVal c1, hexVal c2 with
    | some hi, some lo =>
      match rest, e with
      | [], _ => some (16 * hi + lo)
      | c :: _, some sep => if c = sep then some (16 * hi + lo) else none
      | _ :: _, none => some (16 * hi + lo)
    | _, _ => none
  | _ => none

/-- The `:`/`-` branch of `net.ParseMAC`: read `n` bytes, each a two-digit
hex group followed by the separator. -/
def parseMACGroups (sep : Char) : Nat → List Char → Option (List Nat)
  | 0, _ => some []
  | n + 1, s =>
    match xtoi2 s (some sep) with
    | none => none
    | some b =>
      match parseMACGroups sep n (s.drop 3) with
      | none => none
      | some bs => some (b :: bs)

/-- The `.` branch of `net.ParseMAC`: read `n` byte pairs, each a four-digit
hex group followed by `.`. -/
def parseMACDotGroups : Nat → List Char → Option (List Nat)
  | 0, _ => some []
  | n + 1, s =>
    match xtoi2 (s.take 2) none, xtoi2 (s.drop 2) (some '.') with
    | some b1, some b2 =>
      match parseMACDotGroups n (s.drop 5) with
      | none => none
      | some bs => some (b1 :: b2 :: bs)
    | _, _ => none

/-- Model of Go `net.ParseMAC`: on success the parsed byte list (length 6, 8
or 20), on failure `none` (Go: a non-nil error and a nil address). -/
def parseMAC (s : String) : Option (List Nat) :=
  let cs := s.data
  let len := cs.length
  if len < 14 then none
  else if cs.getD 2 ' ' = ':' ∨ cs.getD 2 ' ' = '-' then
    if (len + 1) % 3 ≠ 0 then none
    else
      let n := (len + 1) / 3
      if n = 6 ∨ n = 8 ∨ n = 20 then parseMACGroups (cs.getD 2 ' ') n cs else none
  else if cs.getD 4 ' ' = '.' then
    if (len + 1) % 5 ≠ 0 then none
    else
      let n := 2 * ((len + 1) / 5)
      if n = 6 ∨ n = 8 ∨ n = 20 then parseMACDotGroups (n / 2) cs else none
  else none

/-- Lowercase hex digit, as in Go's `hexDigit` table. -/
def hexDigitChar (n : Nat) : Char :=
  "0123456789abcdef".data.getD n '?'

/-- Two lowercase hex digits of a byte. -/
def byteHex (b : Nat) : String :=
  String.mk [hexDigitChar (b / 16 % 16), hexDigitChar (b % 16)]

/-- Model of Go `net.HardwareAddr.String`: colon-joined lowercase hex bytes;
the nil address (a MAC that was never parsed successfully) renders as `""`. -/
def hardwareAddrString (a : Option (List Nat)) : String :=
  match a with
  | none => ""
  | some bs => String.intercalate ":" (bs.map byteHex)

/-! ## Model of Go `net.ParseIP` (IPv4 path)

`Device.UnmarshalJSON` rejects a device whose `inform_ip` does not parse.
Only the IPv4 dotted-decimal path is modelled; IPv6 textual forms (which no
claim exercises) are treated as unparseable. -/

/-- Split a character list on `.` (the field separator of a dotted-decimal
address). -/
def splitDots : List Char → List (List Char)
  | [] => [[]]
  | c :: rest =>
    match splitDots rest with
    | [] => if c = '.' then [[], []] else [[c]]
    | f :: fs => if c = '.' then [] :: f :: fs else (c :: f) :: fs

/-- Decimal value of a digit list. -/
def decFieldVal (cs : List Char) : Nat :=
  cs.foldl (fun acc c => acc * 10 + (c.toNat - '0'.toNat)) 0

/-- Is the field a decimal number `0..255` (at least one digit)? -/
def isIPv4Field (cs : List Char) : Bool :=
  cs ≠ [] ∧ cs.all (fun c => '0' ≤ c ∧ c ≤ '9') ∧ decFieldVal cs ≤ 255

/-- Model of `net.ParseIP`, IPv4 dotted-decimal path: four decimal fields
`0..255` joined by `.`. -/
def parseIPv4 (s : String) : Option (List Nat) :=
  let fields := splitDots s.data
  if fields.length = 4 ∧ fields.all isIPv4Field then
    some (fields.map decFieldVal)
  else
    none

/-- Model of Go `url.Parse` as used on `inform_url`: it fails only on
control characters; all other strings parse. -/
def urlParse (s : String) : Option String :=
  if s.data.any (fun c => c.toNat < 32) then none else some s

/-! ## `siteDescription` (unifiexporter.go)

The device collector labels its samples with the *normalized* site
description: lower-cased, with space, hyphen, underscore and dot removed
(`strings.ToLower` then `strings.Map` dropping those runes). -/

/-- Embedding of `siteDescription` from `unifiexporter.go`. -/
def siteDescription (desc : String) : String :=
  String.mk ((desc.data.map Char.toLower).filter
    (fun r => ¬(r = ' ' ∨ r = '-' ∨ r = '_' ∨ r = '.')))

/-! ## Stations (vendored `unifi/stations.go`)

`Station` keeps the fields consumed by the station collectors; fields the
collectors never read (channel, rates, timestamps, transmit power) are
omitted from the embedding. -/

/-- Station network counters (vendored `StationStats`, consumed subset).
The Go fields are `int64`. -/
structure StationStats where
  receiveBytes : Int
  receivePackets : Int
  transmitBytes : Int
  transmitPackets : Int
deriving DecidableEq, Repr

/-- A connected client (vendored `Station`, consumed subset). `apmac` is
`none` when `net.ParseMAC` did not succeed on `ap_mac` (Go: a nil
`HardwareAddr`). -/
structure Station where
  id : String
  apmac : Option (List Nat)
  hostname : String
  isWired : Bool
  mac : List Nat
  name : String
  noise : Int
  rssi : Int
  siteID : String
  stats : StationStats
  uptime : Int
deriving DecidableEq, Repr

/-- The raw wire-format station record (vendored unexported `station`,
consumed subset), after the outer JSON decode. -/
structure RawStation where
  id : String
  apMac : String
  hostname : String
  isWired : Bool
  mac : String
  name : String
  noise : Int
  rssi : Int
  siteID : String
  rxBytes : Int
  rxPackets : Int
  txBytes : Int
  txPackets : Int
  uptime : Int
deriving DecidableEq, Repr

/-- Embedding of `Station.UnmarshalJSON`: the `ap_mac` parse error is
surfaced only when the station is not wired; the `mac` parse error is always
surfaced; on success `apmac` holds whatever `net.ParseMAC` produced for
`ap_mac` (possibly `none` for a wired station). -/
def unmarshalStation (raw : RawStation) : Except String Station :=
  let apMAC := parseMAC raw.apMac
  if ¬raw.isWired ∧ apMAC = none then
    Except.error ("invalid MAC address: " ++ raw.apMac)
  else
    match parseMAC raw.mac with
    | none => Except.error ("invalid MAC address: " ++ raw.mac)
    | some m =>
      Except.ok
        { id := raw.id
          apmac := apMAC
          hostname := raw.hostname
          isWired := raw.isWired
          mac := m
          name := raw.name
          noise := raw.noise
          rssi := raw.rssi
          siteID := raw.siteID
          stats :=
            { receiveBytes := raw.rxBytes
              receivePackets := raw.rxPackets
              transmitBytes := raw.txBytes
              transmitPackets := raw.txPackets }
          uptime := raw.uptime }

/-! ## Station collector, current variant (`StationCollector` with
`CollectError`, RSSI/noise metrics and the `hostName` helper) -/

/-- Embedding of `hostName`: prefer the controller-assigned `name`, fall
back to the client-reported `hostname`. -/
def hostName (s : Station) : String :=
  if s.name ≠ "" then s.name else s.hostname

/-- The per-station label values, in the order of `labelsStation`
(`site`, `id`, `ap_mac`, `station_mac`, `hostname`). -/
def stationLabels (siteLabel : String) (s : Station) : List String :=
  [siteLabel, s.id, hardwareAddrString s.apmac, hardwareAddrString (some s.mac),
    hostName s]

/-- Embedding of the body of `collectStationBytes` for one station: the four
counter samples, in emission order. -/
def stationBytesSamples (siteLabel : String) (s : Station) : List Sample :=
  [ ⟨"unifi_stations_received_bytes_total", stationLabels siteLabel s,
      (s.stats.receiveBytes : ℚ)⟩,
    ⟨"unifi_stations_transmitted_bytes_total", stationLabels siteLabel s,
      (s.stats.transmitBytes : ℚ)⟩,
    ⟨"unifi_stations_received_packets_total", stationLabels siteLabel s,
      (s.stats.receivePackets : ℚ)⟩,
    ⟨"unifi_stations_transmitted_packets_total", stationLabels siteLabel s,
      (s.stats.transmitPackets : ℚ)⟩ ]

/-- Embedding of `collectStationBytes` (loop over the station list). -/
def collectStationBytes (siteLabel : String) (stations : List Station) :
    List Sample :=
  stations.flatMap (stationBytesSamples siteLabel)

/-- Embedding of the body of `collectStationSignal` for one station: skipped
entirely when the access-point MAC renders as the empty string, otherwise
one RSSI and one noise sample with the same labels as the counter samples. -/
def stationSignalSamples (siteLabel : String) (s : Station) : List Sample :=
  if hardwareAddrString s.apmac = "" then []
  else
    [ ⟨"unifi_stations_rssi_dbm", stationLabels siteLabel s, (s.rssi : ℚ)⟩,
      ⟨"unifi_stations_noise_dbm", stationLabels siteLabel s, (s.noise : ℚ)⟩ ]

/-- Embedding of `collectStationSignal` (loop over the station list). -/
def collectStationSignal (siteLabel : String) (stations : List Station) :
    List Sample :=
  stations.flatMap (stationSignalSamples siteLabel)

/-- Embedding of `StationCollector.collect` for one site whose fetch
succeeded: the site-count sample (labelled with the raw description), then
the counter samples, then the signal samples. -/
def stationCollectSite (site : Site) (stations : List Station) : List Sample :=
  ⟨"unifi_stations", [site.description], (stations.length : ℚ)⟩ ::
    (collectStationBytes site.description stations ++
      collectStationSignal site.description stations)

/-- Embedding of `StationCollector.collect` over the site list: emissions so
far plus the error that stopped the sweep, if any. A site whose fetch fails
contributes nothing and ends the sweep. -/
def stationCollect (fetch : String → Except String (List Station)) :
    List Site → List Sample × Option String
  | [] => ([], none)
  | site :: rest =>
    match fetch site.name with
    | Except.error e => ([], some e)
    | Except.ok stations =>
      let (more, err) := stationCollect fetch rest
      (stationCollectSite site stations ++ more, err)

/-- What a collector pushes on the metrics channel: an ordinary sample or an
invalid-metric marker (`prometheus.NewInvalidMetric`). -/
inductive Emission where
  | metric (s : Sample)
  | invalid (metricName : String) (err : String)
deriving DecidableEq, Repr

/-- Embedding of the current `StationCollector.CollectError`: the collected
samples, the invalid-metric marker appended on failure, and the returned
error. -/
def stationCollectError (fetch : String → Except String (List Station))
    (sites : List Site) : List Emission × Option String :=
  match stationCollect fetch sites with
  | (out, none) => (out.map Emission.metric, none)
  | (out, some e) =>
    (out.map Emission.metric ++ [Emission.invalid "unifi_stations" e], some e)

/-- Embedding of the current `StationCollector.Collect`, which runs
`CollectError` and discards the returned error. -/
def stationCollectorCollect (fetch : String → Except String (List Station))
    (sites : List Site) : List Emission :=
  (stationCollectError fetch sites).1

/-! ## Devices (vendored `unifi/devices.go`, the variant whose raw `stat`
and `uplink` counters are `float64`)

`Device` keeps the fields consumed by the device collector and by
`Device.UnmarshalJSON`'s validation; `Guest` wireless statistics (never
populated) and cosmetic fields are omitted. -/

/-- A wired network interface of a device (vendored `NIC`). -/
structure NIC where
  mac : List Nat
  name : String
deriving DecidableEq, Repr

/-- Per-radio station counts (vendored `RadioStationsStats`). -/
structure RadioStationsStats where
  numberStations : Int
  numberGuestStations : Int
  numberUserStations : Int
deriving DecidableEq, Repr

/-- A wireless radio (vendored `Radio`, consumed subset). `stats` is `none`
exactly when `UnmarshalJSON` left the Go `*RadioStationsStats` nil, i.e.
when the radio-band code was neither `na` nor `ng`; `radio` is then the Go
zero value `""`. -/
structure Radio where
  name : String
  radio : String
  stats : Option RadioStationsStats
deriving DecidableEq, Repr

/-- Wireless activity counters (vendored `WirelessStats`, `float64`). -/
structure WirelessStats where
  receiveBytes : ℚ
  receivePackets : ℚ
  transmitBytes : ℚ
  transmitDropped : ℚ
  transmitPackets : ℚ
deriving DecidableEq, Repr

/-- Wired-uplink activity counters (vendored `WiredStats`, `float64`). -/
structure WiredStats where
  receiveBytes : ℚ
  receivePackets : ℚ
  transmitBytes : ℚ
  transmitPackets : ℚ
deriving DecidableEq, Repr

/-- Device activity counters (vendored `DeviceStats`). -/
structure DeviceStats where
  totalBytes : ℚ
  all : WirelessStats
  user : WirelessStats
  uplink : WiredStats
deriving DecidableEq, Repr

/-- A managed device (vendored `Device`, consumed subset). `uptimeNanos`
models the Go `time.Duration` (nanoseconds). -/
structure Device where
  id : String
  adopted : Bool
  informIP : List Nat
  informURL : String
  name : String
  nics : List NIC
  radios : List Radio
  serial : String
  siteID : String
  stats : DeviceStats
  uptimeNanos : Int
  version : String
deriving DecidableEq, Repr

/-- Raw `ethernet_table` entry of the wire-format device record. -/
structure RawEthernet where
  mac : String
  name : String
deriving DecidableEq, Repr

/-- Raw `radio_table` entry of the wire-format device record (consumed
subset). -/
structure RawRadio where
  name : String
  radio : String
deriving DecidableEq, Repr

/-- Raw `stat` object of the wire-format device record (consumed subset;
Go fields are `float64`). -/
structure RawDeviceStat where
  bytes : ℚ
  rxBytes : ℚ
  rxPackets : ℚ
  txBytes : ℚ
  txDropped : ℚ
  txPackets : ℚ
  userRxBytes : ℚ
  userRxPackets : ℚ
  userTxBytes : ℚ
  userTxDropped : ℚ
  userTxPackets : ℚ
deriving DecidableEq, Repr

/-- Raw `uplink` object of the wire-format device record (consumed subset;
Go fields are `float64`). -/
structure RawUplink where
  rxBytes : ℚ
  rxPackets : ℚ
  txBytes : ℚ
  txPackets : ℚ
deriving DecidableEq, Repr

/-- The raw wire-format device record (vendored unexported `device`,
consumed subset), after the outer JSON decode. -/
structure RawDevice where
  id : String
  adopted : Bool
  informIP : String
  informURL : String
  name : String
  ethernetTable : List RawEthernet
  radioTable : List RawRadio
  naNumSta : Int
  naUserNumSta : Int
  naGuestNumSta : Int
  ngNumSta : Int
  ngUserNumSta : Int
  ngGuestNumSta : Int
  serial : String
  siteID : String
  stat : RawDeviceStat
  uplink : RawUplink
  uptime : Int
  version : String
deriving DecidableEq, Repr

/-- The NIC loop of `Device.UnmarshalJSON`: each `ethernet_table` entry must
have a parseable MAC, otherwise the whole record fails; an empty table
yields an empty NIC list and no error. -/
def parseNICs : List RawEthernet → Except String (List NIC)
  | [] => Except.ok []
  | et :: rest =>
    match parseMAC et.mac with
    | none => Except.error ("invalid MAC address: " ++ et.mac)
    | some m =>
      match parseNICs rest with
      | Except.error e => Except.error e
      | Except.ok ns => Except.ok (⟨m, et.name⟩ :: ns)

/-- The radio loop of `Device.UnmarshalJSON`: `na` and `ng` are normalized
to `5GHz` and `2.4GHz` and pick up the matching station counts; any other
code leaves the band at the Go zero value and the stats pointer nil. -/
def radioFromRaw (dev : RawDevice) (rt : RawRadio) : Radio :=
  if rt.radio = "na" then
    { name := rt.name, radio := "5GHz",
      stats := some ⟨dev.naNumSta, dev.naGuestNumSta, dev.naUserNumSta⟩ }
  else if rt.radio = "ng" then
    { name := rt.name, radio := "2.4GHz",
      stats := some ⟨dev.ngNumSta, dev.ngGuestNumSta, dev.ngUserNumSta⟩ }
  else
    { name := rt.name, radio := "", stats := none }

/-- Two-complement wrap of Go `int64` arithmetic. -/
def int64wrap (i : Int) : Int :=
  (i + 2 ^ 63) % 2 ^ 64 - 2 ^ 63

/-- Embedding of `Device.UnmarshalJSON`: validates `inform_ip`,
`inform_url` and every `ethernet_table` MAC, builds the radios and copies
the counters; `time.Duration(dev.Uptime) * time.Second` is the int64
product in nanoseconds. -/
def unmarshalDevice (raw : RawDevice) : Except String Device :=
  match parseIPv4 raw.informIP with
  | none => Except.error ("failed to parse inform IP: " ++ raw.informIP)
  | some ip =>
    match urlParse raw.informURL with
    | none => Except.error ("failed to parse inform URL: " ++ raw.informURL)
    | some u =>
      match parseNICs raw.ethernetTable with
      | Except.error e => Except.error e
      | Except.ok nics =>
        Except.ok
          { id := raw.id
            adopted := raw.adopted
            informIP := ip
            informURL := u
            name := raw.name
            nics := nics
            radios := raw.radioTable.map (radioFromRaw raw)
            serial := raw.serial
            siteID := raw.siteID
            stats :=
              { totalBytes := raw.stat.bytes
                all :=
                  { receiveBytes := raw.stat.rxBytes
                    receivePackets := raw.stat.rxPackets
                    transmitBytes := raw.stat.txBytes
                    transmitDropped := raw.stat.txDropped
                    transmitPackets := raw.stat.txPackets }
                user :=
                  { receiveBytes := raw.stat.userRxBytes
                    receivePackets := raw.stat.userRxPackets
                    transmitBytes := raw.stat.userTxBytes
                    transmitDropped := raw.stat.userTxDropped
                    transmitPackets := raw.stat.userTxPackets }
                uplink :=
                  { receiveBytes := raw.uplink.rxBytes
                    receivePackets := raw.uplink.rxPackets
                    transmitBytes := raw.uplink.txBytes
                    transmitPackets := raw.uplink.txPackets } }
            uptimeNanos := int64wrap (raw.uptime * 1000000000)
            version := raw.version }

/-! ## Device collector (`devicecollector.go`)

Per-device sample construction dereferences `d.NICs[0]` and `r.Stats`
without a check; the embedding returns `none` where the Go code would
panic at run time (index out of range, nil-pointer dereference). -/

/-- The per-device label values (`site`, `id`, `mac`, `name`), built from
`d.NICs[0].MAC.String()`; `none` models the index-out-of-range panic on an
empty NIC list. -/
def deviceLabels (siteLabel : String) (d : Device) : Option (List String) :=
  match d.nics with
  | [] => none
  | nic :: _ => some [siteLabel, d.id, hardwareAddrString (some nic.mac), d.name]

/-- Embedding of `collectDeviceAdoptions`'s loop: one pass over the device
list, incrementing one of two counters according to the `Adopted` boolean
alone; returns `(adopted, unadopted)`. -/
def deviceAdoptionCounts (devices : List Device) : Nat × Nat :=
  devices.foldl
    (fun p d => if d.adopted then (p.1 + 1, p.2) else (p.1, p.2 + 1))
    (0, 0)

/-- Embedding of `collectDeviceAdoptions`: the two site-only samples. -/
def collectDeviceAdoptions (siteLabel : String) (devices : List Device) :
    List Sample :=
  [ ⟨"unifi_devices_adopted", [siteLabel],
      ((deviceAdoptionCounts devices).1 : ℚ)⟩,
    ⟨"unifi_devices_unadopted", [siteLabel],
      ((deviceAdoptionCounts devices).2 : ℚ)⟩ ]

/-- Embedding of `collectDeviceUptime`: one uptime sample per device,
valued `d.Uptime / time.Second` (truncating int64 division). -/
def collectDeviceUptime (siteLabel : String) : List Device → Option (List Sample)
  | [] => some []
  | d :: rest =>
    match deviceLabels siteLabel d with
    | none => none
    | some labels =>
      match collectDeviceUptime siteLabel rest with
      | none => none
      | some more =>
        some (⟨"unifi_devices_uptime_seconds", labels,
          ((d.uptimeNanos.tdiv 1000000000 : Int) : ℚ)⟩ :: more)

/-- The ten byte/packet samples of one device in `collectDeviceBytes`. -/
def deviceBytesSamples (labels : List String) (d : Device) : List Sample :=
  [ ⟨"unifi_devices_wireless_total_bytes", labels, d.stats.totalBytes⟩,
    ⟨"unifi_devices_wireless_received_bytes", labels, d.stats.all.receiveBytes⟩,
    ⟨"unifi_devices_wireless_transmitted_bytes", labels, d.stats.all.transmitBytes⟩,
    ⟨"unifi_devices_wireless_received_packets", labels, d.stats.all.receivePackets⟩,
    ⟨"unifi_devices_wireless_transmitted_packets", labels, d.stats.all.transmitPackets⟩,
    ⟨"unifi_devices_wireless_transmitted_dropped", labels, d.stats.all.transmitDropped⟩,
    ⟨"unifi_devices_wired_received_bytes", labels, d.stats.uplink.receiveBytes⟩,
    ⟨"unifi_devices_wired_transmitted_bytes", labels, d.stats.uplink.transmitBytes⟩,
    ⟨"unifi_devices_wired_received_packets", labels, d.stats.uplink.receivePackets⟩,
    ⟨"unifi_devices_wired_transmitted_packets", labels, d.stats.uplink.transmitPackets⟩ ]

/-- Embedding of `collectDeviceBytes`. -/
def collectDeviceBytes (siteLabel : String) : List Device → Option (List Sample)
  | [] => some []
  | d :: rest =>
    match deviceLabels siteLabel d with
    | none => none
    | some labels =>
      match collectDeviceBytes siteLabel rest with
      | none => none
      | some more => some (deviceBytesSamples labels d ++ more)

/-- One radio's three station-count samples in `collectDeviceStations`.
The Go code reads `r.Stats.NumberStations` etc. without a nil check:
`none` models the nil-pointer dereference for a radio whose band code was
unrecognized. -/
def radioStationsSamples (labels : List String) (r : Radio) :
    Option (List Sample) :=
  match r.stats with
  | none => none
  | some st =>
    some
      [ ⟨"unifi_devices_stations_total", labels ++ [r.name, r.radio],
          (st.numberStations : ℚ)⟩,
        ⟨"unifi_devices_stations_user", labels ++ [r.name, r.radio],
          (st.numberUserStations : ℚ)⟩,
        ⟨"unifi_devices_stations_guest", labels ++ [r.name, r.radio],
          (st.numberGuestStations : ℚ)⟩ ]

/-- The radio loop of `collectDeviceStations` for one device. -/
def radiosSamples (labels : List String) : List Radio → Option (List Sample)
  | [] => some []
  | r :: rest =>
    match radioStationsSamples labels r with
    | none => none
    | some out =>
      match radiosSamples labels rest with
      | none => none
      | some more => some (out ++ more)

/-- Embedding of `collectDeviceStations`. -/
def collectDeviceStations (siteLabel : String) : List Device → Option (List Sample)
  | [] => some []
  | d :: rest =>
    match deviceLabels siteLabel d with
    | none => none
    | some labels =>
      match radiosSamples labels d.radios with
      | none => none
      | some out =>
        match collectDeviceStations siteLabel rest with
        | none => none
        | some more => some (out ++ more)

/-- Embedding of `DeviceCollector.collect` for one site whose fetch
succeeded: the site-only count sample (labelled with the *normalized*
description), adoption counts, uptimes, byte counters and station counts,
any of which can panic. -/
def deviceCollectSite (site : Site) (devices : List Device) :
    Option (List Sample) :=
  let siteLabel := siteDescription site.description
  match collectDeviceUptime siteLabel devices with
  | none => none
  | some up =>
    match collectDeviceBytes siteLabel devices with
    | none => none
    | some bys =>
      match collectDeviceStations siteLabel devices with
      | none => none
      | some sta =>
        some (⟨"unifi_devices_total", [siteLabel], (devices.length : ℚ)⟩ ::
          (collectDeviceAdoptions siteLabel devices ++ up ++ bys ++ sta))

/-- Outcome of `DeviceCollector.collect` over the site list. -/
inductive DeviceCollectOutcome where
  | ok (samples : List Sample)
  | fail (e : String)
  | panicked
deriving DecidableEq, Repr

/-- Embedding of `DeviceCollector.collect`: a site fetch error aborts the
sweep and is returned; a per-device panic propagates. -/
def deviceCollect (fetch : String → Except String (List Device)) :
    List Site → DeviceCollectOutcome
  | [] => DeviceCollectOutcome.ok []
  | site :: rest =>
    match fetch site.name with
    | Except.error e => DeviceCollectOutcome.fail e
    | Except.ok devices =>
      match deviceCollectSite site devices with
      | none => DeviceCollectOutcome.panicked
      | some out =>
        match deviceCollect fetch rest with
        | DeviceCollectOutcome.ok more => DeviceCollectOutcome.ok (out ++ more)
        | DeviceCollectOutcome.fail e => DeviceCollectOutcome.fail e
        | DeviceCollectOutcome.panicked => DeviceCollectOutcome.panicked

/-- Outcome of one `DeviceCollector.Collect` invocation as observed by the
process: samples served, `log.Fatalf` (process exit), or a runtime panic. -/
inductive DeviceRun where
  | emitted (samples : List Sample)
  | fatalExit
  | panicked
deriving DecidableEq, Repr

/-- Embedding of `DeviceCollector.Collect`: a collection error is routed to
`log.Fatalf`, which terminates the process. -/
def deviceCollectorCollect (fetch : String → Except String (List Device))
    (sites : List Site) : DeviceRun :=
  match deviceCollect fetch sites with
  | DeviceCollectOutcome.ok samples => DeviceRun.emitted samples
  | DeviceCollectOutcome.fail _ => DeviceRun.fatalExit
  | DeviceCollectOutcome.panicked => DeviceRun.panicked

/-! ## The outer JSON decode of numeric counter fields

Go's `encoding/json` reads a JSON number into a `float64` struct field with
`strconv.ParseFloat` (accepting integer and fractional/exponent literals
alike) and into an `int64` field with `strconv.ParseInt`, which rejects any
literal carrying a fraction dot or exponent. The raw `device` struct of the
vendored library declares its `stat`/`uplink` counters as `float64`; the
raw `station` struct declares its counters as `int64`. Values are modelled
as exact rationals. -/

/-- A JSON number literal: written as an integer, or with a fraction dot or
exponent. -/
inductive JsonNum where
  | intLit (i : Int)
  | floatLit (q : ℚ)
deriving DecidableEq, Repr

/-- The numeric value of a JSON number literal. -/
def jsonNumVal : JsonNum → ℚ
  | JsonNum.intLit i => (i : ℚ)
  | JsonNum.floatLit q => q

/-- Decoding a JSON number into a Go `float64` field: both syntactic forms
are accepted. -/
def decodeFloat64 : JsonNum → Option ℚ
  | JsonNum.intLit i => some (i : ℚ)
  | JsonNum.floatLit q => some q

/-- Decoding a JSON number into a Go `int64` field: only integer literals
are accepted (Go: `json: cannot unmarshal number ... into ... int64`). -/
def decodeInt64 : JsonNum → Option Int
  | JsonNum.intLit i => some i
  | JsonNum.floatLit _ => none

/-- The numeric literals feeding the wireless counters of a raw device's
`stat` object. -/
structure DeviceStatLits where
  bytes : JsonNum
  rxBytes : JsonNum
  rxPackets : JsonNum
  txBytes : JsonNum
  txDropped : JsonNum
  txPackets : JsonNum
deriving DecidableEq, Repr

/-- Outer JSON decode of a raw device `stat` object (wireless counters;
`float64` fields). -/
def decodeDeviceStat (l : DeviceStatLits) (rest : RawDeviceStat) :
    Option RawDeviceStat :=
  match decodeFloat64 l.bytes, decodeFloat64 l.rxBytes, decodeFloat64 l.rxPackets,
      decodeFloat64 l.txBytes, decodeFloat64 l.txDropped, decodeFloat64 l.txPackets with
  | some b, some rb, some rp, some tb, some td, some tp =>
    some { rest with
      bytes := b, rxBytes := rb, rxPackets := rp,
      txBytes := tb, txDropped := td, txPackets := tp }
  | _, _, _, _, _, _ => none

/-- The numeric literals feeding the counters of a raw station record. -/
structure StationCounterLits where
  rxBytes : JsonNum
  rxPackets : JsonNum
  txBytes : JsonNum
  txPackets : JsonNum
deriving DecidableEq, Repr

/-- Outer JSON decode of a raw station record's counters (`int64` fields):
fails whenever any counter literal is written in floating-point form, which
fails the whole `Stations` list fetch for that site. -/
def decodeStationCounters (l : StationCounterLits) (rest : RawStation) :
    Option RawStation :=
  match decodeInt64 l.rxBytes, decodeInt64 l.rxPackets,
      decodeInt64 l.txBytes, decodeInt64 l.txPackets with
  | some rb, some rp, some tb, some tp =>
    some { rest with rxBytes := rb, rxPackets := rp, txBytes := tb, txPackets := tp }
  | _, _, _, _ => none

/-! ## Exporter (`unifiexporter.go`, the `ClientFunc` / `CollectError`
variant)

`Exporter.Collect` ranges over the collector slice captured at entry; a
collector whose `CollectError` returns an error triggers one `initClient`
call (fresh login + collector-set rebuild); on rebuild failure `Collect`
logs and returns at once; on rebuild success the loop continues over the
*old* slice and the new collectors only serve future scrapes. Collectors
are modelled by their per-scrape behaviour: what they push on the channel
and whether they return an error. -/

/-- The per-scrape behaviour of one collector, as seen by the exporter. -/
structure SimCollector where
  emits : List String
  fails : Bool
deriving DecidableEq, Repr

/-- The state observable after one `Exporter.Collect` invocation: channel
contents in order, the collector set left for future scrapes, the number of
`initClient` (login) attempts, and whether the invocation returned early
after a failing re-login. -/
structure ExporterRun where
  out : List String
  collectors : List SimCollector
  logins : Nat
  aborted : Bool
deriving DecidableEq, Repr

/-- The loop of `Exporter.Collect`: first argument is the slice captured by
`range`, `cur` the live `e.collectors` field, `k` the `initClient` calls so
far; `fn k` is the outcome of the `k`-th `initClient` (the `ClientFunc`
login plus rebuild), `none` meaning the login failed. -/
def collectFrom (fn : Nat → Option (List SimCollector)) :
    List SimCollector → List SimCollector → Nat → ExporterRun
  | [], cur, k => ⟨[], cur, k, false⟩
  | c :: rest, cur, k =>
    if c.fails then
      match fn k with
      | none => ⟨c.emits, cur, k + 1, true⟩
      | some rebuilt =>
        let r := collectFrom fn rest rebuilt (k + 1)
        ⟨c.emits ++ r.out, r.collectors, r.logins, r.aborted⟩
    else
      let r := collectFrom fn rest cur k
      ⟨c.emits ++ r.out, r.collectors, r.logins, r.aborted⟩

/-- Embedding of `Exporter.Collect`: iterate the collector set captured at
entry, with zero logins attempted so far. -/
def exporterCollect (fn : Nat → Option (List SimCollector))
    (st : List SimCollector) : ExporterRun :=
  collectFrom fn st st 0

/-! ## Concrete fixtures

Concrete records used to evaluate the embedding at specific inputs, drawn
from the shapes exercised by the repository's test suite. -/

/-- A wireless station fixture (association to AP `a0:a0:a0:a0:a0:a0`). -/
def staWireless : Station :=
  { id := "abcdef"
    apmac := some [160, 160, 160, 160, 160, 160]
    hostname := "foo"
    isWired := false
    mac := [222, 173, 190, 239, 222, 173]
    name := "Bob"
    noise := -95
    rssi := -35
    siteID := "s1"
    stats := ⟨10, 1, 20, 2⟩
    uptime := 100 }

/-- A wired station fixture (nil access-point MAC). -/
def staWired : Station :=
  { staWireless with id := "ghijkl", apmac := none, name := "", hostname := "bar" }

/-- A raw wired station whose `ap_mac` is empty (unparseable). -/
def rawWiredBadAp : RawStation :=
  { id := "id1"
    apMac := ""
    hostname := "host"
    isWired := true
    mac := "de:ad:be:ef:de:ad"
    name := ""
    noise := 0
    rssi := 0
    siteID := "s1"
    rxBytes := 1
    rxPackets := 2
    txBytes := 3
    txPackets := 4
    uptime := 5 }

/-- The station `rawWiredBadAp` decodes to. -/
def stWiredBadAp : Station :=
  { id := "id1"
    apmac := none
    hostname := "host"
    isWired := true
    mac := [222, 173, 190, 239, 222, 173]
    name := ""
    noise := 0
    rssi := 0
    siteID := "s1"
    stats := ⟨1, 2, 3, 4⟩
    uptime := 5 }

/-- The same record marked wireless: the `ap_mac` failure now surfaces. -/
def rawWirelessBadAp : RawStation :=
  { rawWiredBadAp with isWired := false }

/-- A raw device with an empty `ethernet_table` (no NICs). -/
def rawDevNoNics : RawDevice :=
  { id := "abc"
    adopted := true
    informIP := "192.168.1.1"
    informURL := "http://192.168.1.1:8080/inform"
    name := "ABC"
    ethernetTable := []
    radioTable := [⟨"wifi0", "ng"⟩]
    naNumSta := 6
    naUserNumSta := 4
    naGuestNumSta := 2
    ngNumSta := 3
    ngUserNumSta := 2
    ngGuestNumSta := 1
    serial := ""
    siteID := ""
    stat := ⟨100, 80, 4, 20, 1, 1, 0, 0, 0, 0, 0⟩
    uplink := ⟨20, 2, 10, 1⟩
    uptime := 10
    version := "" }

/-- The device `rawDevNoNics` decodes to (decoding succeeds; the empty NIC
list is not rejected). -/
def devNoNics : Device :=
  { id := "abc"
    adopted := true
    informIP := [192, 168, 1, 1]
    informURL := "http://192.168.1.1:8080/inform"
    name := "ABC"
    nics := []
    radios := [⟨"wifi0", "2.4GHz", some ⟨3, 1, 2⟩⟩]
    serial := ""
    siteID := ""
    stats :=
      { totalBytes := 100
        all := ⟨80, 4, 20, 1, 1⟩
        user := ⟨0, 0, 0, 0, 0⟩
        uplink := ⟨20, 2, 10, 1⟩ }
    uptimeNanos := 10000000000
    version := "" }

/-- A raw device whose only radio carries the unrecognized band code
`xx`. -/
def rawDevXX : RawDevice :=
  { rawDevNoNics with
    ethernetTable := [⟨"de:ad:be:ef:de:ad", ""⟩]
    radioTable := [⟨"wifi0", "xx"⟩] }

/-- The device `rawDevXX` decodes to: the radio survives with a zero-value
band and a nil stats pointer. -/
def devXX : Device :=
  { devNoNics with
    nics := [⟨[222, 173, 190, 239, 222, 173], ""⟩]
    radios := [⟨"wifi0", "", none⟩] }

/-- A well-formed device fixture: one NIC, one recognized (`2.4GHz`)
radio. -/
def devOk : Device :=
  { devXX with radios := [⟨"wifi0", "2.4GHz", some ⟨3, 1, 2⟩⟩] }

/-- The sample list produced by a successful device sweep of the site
`{name: default, description: Default}` holding `devOk` alone. -/
def devOkSamples : List Sample :=
  (deviceCollectSite ⟨"default", "Default"⟩ [devOk]).getD []

/-- A facade whose device listing always fails (e.g. an expired session). -/
def failFetchD : String → Except String (List Device) :=
  fun _ => Except.error "401 Unauthorized"

/-- A facade whose station listing always fails. -/
def failFetchS : String → Except String (List Station) :=
  fun _ => Except.error "401 Unauthorized"

/-! ## Theorems settling the claims -/

/-- C2: the claim says no code path of the core's Collect operations aborts
the process. The code contradicts it: `DeviceCollector.Collect` routes any
collection error (here a failing device-list fetch) to `log.Fatalf`,
terminating the process; the station collector, by contrast, surfaces the
same failure as an invalid-metric marker and returns normally. -/
theorem deviceCollector_fatal_on_fetch_error :
    deviceCollectorCollect failFetchD [⟨"default", "Default"⟩] =
      DeviceRun.fatalExit ∧
    stationCollectorCollect failFetchS [⟨"default", "Default"⟩] =
      [Emission.invalid "unifi_stations" "401 Unauthorized"] :=
  ⟨rfl, rfl⟩

/-- C3: the claim says a device record with an empty NIC list fails the
mapping with an explicit error. The code contradicts it: decoding
`rawDevNoNics` (empty `ethernet_table`) succeeds with an empty NIC list,
and the collector then panics (index out of range on `d.NICs[0]`) in
`collectDeviceUptime`, killing the whole site sweep instead of failing with
an error. -/
theorem emptyNicList_decodes_then_panics :
    unmarshalDevice rawDevNoNics = Except.ok devNoNics ∧
    devNoNics.nics = [] ∧
    collectDeviceUptime "default" [devNoNics] = none ∧
    deviceCollectSite ⟨"default", "Default"⟩ [devNoNics] = none :=
  ⟨rfl, rfl, rfl, rfl⟩

/-- C4: the claim says a radio whose band code is neither `na` nor `ng` is
skipped while the rest of the device succeeds. The code contradicts it:
decoding keeps the radio with a nil stats pointer, and
`collectDeviceStations` dereferences `r.Stats` without a check — the
unrecognized radio panics the whole site sweep rather than being
skipped. -/
theorem unrecognizedRadio_panics :
    unmarshalDevice rawDevXX = Except.ok devXX ∧
    devXX.radios = [⟨"wifi0", "", none⟩] ∧
    collectDeviceStations "default" [devXX] = none ∧
    deviceCollectSite ⟨"default", "Default"⟩ [devXX] = none :=
  ⟨rfl, rfl, rfl, rfl⟩

/-- C10: `Station.UnmarshalJSON` succeeds exactly when the station MAC
parses and, unless the station is wired, the access-point MAC parses too;
on success the access-point MAC field holds whatever `net.ParseMAC`
produced for `ap_mac` — `none` for a wired station whose `ap_mac` was empty
or malformed. -/
theorem unmarshalStation_apmac_policy (raw : RawStation) :
    ((∃ st, unmarshalStation raw = Except.ok st) ↔
      ((raw.isWired = true ∨ (parseMAC raw.apMac).isSome = true) ∧
        (parseMAC raw.mac).isSome = true)) ∧
    (∀ st, unmarshalStation raw = Except.ok st → st.apmac = parseMAC raw.apMac) := by
  unfold unmarshalStation
  rcases hap : parseMAC raw.apMac with _ | apm <;>
    rcases hmac : parseMAC raw.mac with _ | m <;>
      rcases hw : raw.isWired <;>
        simp [hap, hmac, hw]

/-- C10 witness: a wired station with an empty `ap_mac` decodes
successfully to a station with a nil access-point MAC, while the same
record marked wireless is rejected. -/
theorem unmarshalStation_apmac_policy_witness :
    unmarshalStation rawWiredBadAp = Except.ok stWiredBadAp ∧
    stWiredBadAp.apmac = parseMAC rawWiredBadAp.apMac ∧
    parseMAC rawWiredBadAp.apMac = none ∧
    ¬∃ st, unmarshalStation rawWirelessBadAp = Except.ok st :=
  ⟨rfl,
   (unmarshalStation_apmac_policy rawWiredBadAp).2 stWiredBadAp rfl,
   rfl,
   fun hex => by
    have h := ((unmarshalStation_apmac_policy rawWirelessBadAp).1.mp hex).1
    revert h
    decide⟩

/-- C7: a station whose access-point MAC renders empty gets no RSSI and no
noise sample; any other station gets exactly one RSSI and one noise sample,
carrying the same label values as its counter samples. -/
theorem stationSignal_skip_policy (siteLabel : String) (s : Station) :
    (hardwareAddrString s.apmac = "" → stationSignalSamples siteLabel s = []) ∧
    (hardwareAddrString s.apmac ≠ "" →
      (stationSignalSamples siteLabel s).map Sample.metric =
        ["unifi_stations_rssi_dbm", "unifi_stations_noise_dbm"] ∧
      ∀ sg ∈ stationSignalSamples siteLabel s,
        ∀ ctr ∈ stationBytesSamples siteLabel s, sg.labels = ctr.labels) := by
  by_cases h : hardwareAddrString s.apmac = ""
  · exact ⟨fun _ => by simp [stationSignalSamples, h], fun hne => absurd h hne⟩
  · refine ⟨fun he => absurd he h, fun _ => ⟨by simp [stationSignalSamples, h], ?_⟩⟩
    intro sg hsg ctr hctr
    simp [stationSignalSamples, h] at hsg
    simp [stationBytesSamples] at hctr
    rcases hsg with rfl | rfl <;> rcases hctr with rfl | rfl | rfl | rfl <;> rfl

/-- C7 witness: the wired fixture gets no signal samples; the wireless
fixture gets exactly the RSSI and noise pair. -/
theorem stationSignal_skip_policy_witness :
    stationSignalSamples "Default" staWired = [] ∧
    (stationSignalSamples "Default" staWireless).map Sample.metric =
      ["unifi_stations_rssi_dbm", "unifi_stations_noise_dbm"] :=
  ⟨(stationSignal_skip_policy "Default" staWired).1 (by decide),
   ((stationSignal_skip_policy "Default" staWireless).2 (by decide)).1⟩

/-- C6: every per-station sample (counter or signal) carries the `hostName`
display label: the controller-assigned name when non-empty, otherwise the
reported hostname, and never an empty label when one of the two is
non-empty. -/
theorem stationDisplayName (siteLabel : String) (s : Station) (smp : Sample)
    (hmem : smp ∈ stationBytesSamples siteLabel s ++ stationSignalSamples siteLabel s) :
    smp.labels = stationLabels siteLabel s ∧
    (s.name ≠ "" → smp.labels.getD 4 "" = s.name) ∧
    (s.name = "" → smp.labels.getD 4 "" = s.hostname) ∧
    ((s.name ≠ "" ∨ s.hostname ≠ "") → smp.labels.getD 4 "" ≠ "") := by
  have hl : smp.labels = stationLabels siteLabel s := by
    rcases List.mem_append.1 hmem with h | h
    · simp only [stationBytesSamples, List.mem_cons, List.not_mem_nil, or_false] at h
      rcases h with rfl | rfl | rfl | rfl <;> rfl
    · unfold stationSignalSamples at h
      split_ifs at h
      · simp at h
      · simp only [List.mem_cons, List.not_mem_nil, or_false] at h
        rcases h with rfl | rfl <;> rfl
  have hget : smp.labels.getD 4 "" = hostName s := by rw [hl]; rfl
  refine ⟨hl, ?_, ?_, ?_⟩
  · intro hn; rw [hget]; simp [hostName, hn]
  · intro hn; rw [hget]; simp [hostName, hn]
  · intro hor; rw [hget]
    unfold hostName
    split_ifs with hn
    · exact hn
    · rcases hor with h | h
      · exact absurd (not_ne_iff.mp hn) h
      · exact h

/-- C6 witness: the wireless fixture has a controller name, and its first
counter sample carries it as the display label. -/
theorem stationDisplayName_witness :
    (Sample.mk "unifi_stations_received_bytes_total"
      (stationLabels "Default" staWireless) 10).labels.getD 4 "" =
      staWireless.name ∧
    staWireless.name ≠ "" :=
  ⟨(stationDisplayName "Default" staWireless _ (by decide)).2.1 (by decide),
   by decide⟩

/-- The adoption loop, run from an arbitrary accumulator, counts the
devices satisfying (resp. falsifying) `Adopted`. -/
theorem adoption_foldl (devices : List Device) :
    ∀ a u : Nat,
      devices.foldl (fun p d => if d.adopted then (p.1 + 1, p.2) else (p.1, p.2 + 1)) (a, u) =
        (a + devices.countP (fun d => d.adopted),
          u + devices.countP (fun d => !d.adopted)) := by
  induction devices with
  | nil => intro a u; simp
  | cons d rest ih =>
    intro a u
    rcases hd : d.adopted with _ | _ <;>
      simp [List.foldl_cons, hd, ih, List.countP_cons] <;> try omega

/-- `collectDeviceAdoptions`'s single scan computes the two partition
counts. -/
theorem deviceAdoptionCounts_spec (devices : List Device) :
    deviceAdoptionCounts devices =
      (devices.countP (fun d => d.adopted), devices.countP (fun d => !d.adopted)) := by
  unfold deviceAdoptionCounts
  rw [adoption_foldl]
  simp

/-- The two partition counts sum to the device-list length. -/
theorem countP_adopted_sum (devices : List Device) :
    devices.countP (fun d => d.adopted) + devices.countP (fun d => !d.adopted) =
      devices.length := by
  induction devices with
  | nil => simp
  | cons d rest ih =>
    rcases hd : d.adopted with _ | _ <;> simp [List.countP_cons, hd] <;> omega

/-- Per-device labels start with the site label. -/
theorem deviceLabels_head {siteLabel : String} {d : Device} {labels : List String}
    (h : deviceLabels siteLabel d = some labels) : labels.head? = some siteLabel := by
  unfold deviceLabels at h
  rcases hn : d.nics with _ | ⟨nic, rest⟩ <;> rw [hn] at h
  · simp at h
  · simp only [Option.some.injEq] at h
    subst h
    rfl

/-- Every sample of a successful uptime sweep is an uptime sample whose
labels start with the site label. -/
theorem collectDeviceUptime_shape (siteLabel : String) (devices : List Device) :
    ∀ out, collectDeviceUptime siteLabel devices = some out →
      ∀ smp ∈ out, smp.metric = "unifi_devices_uptime_seconds" ∧
        smp.labels.head? = some siteLabel := by
  induction devices with
  | nil =>
    intro out h smp hs
    simp only [collectDeviceUptime, Option.some.injEq] at h
    subst h
    simp at hs
  | cons d rest ih =>
    intro out h smp hs
    rcases hdl : deviceLabels siteLabel d with _ | labels <;>
      rcases hrest : collectDeviceUptime siteLabel rest with _ | more <;>
        simp only [collectDeviceUptime, hdl, hrest, Option.some.injEq] at h <;>
          try exact Option.noConfusion h
    subst h
    rcases List.mem_cons.1 hs with rfl | hs'
    · exact ⟨rfl, deviceLabels_head hdl⟩
    · exact ih more hrest smp hs'

/-- Every sample of a successful byte sweep carries one of the ten
byte/packet metric names and labels starting with the site label. -/
theorem collectDeviceBytes_shape (siteLabel : String) (devices : List Device) :
    ∀ out, collectDeviceBytes siteLabel devices = some out →
      ∀ smp ∈ out,
        smp.metric ∈
          ["unifi_devices_wireless_total_bytes", "unifi_devices_wireless_received_bytes",
            "unifi_devices_wireless_transmitted_bytes", "unifi_devices_wireless_received_packets",
            "unifi_devices_wireless_transmitted_packets", "unifi_devices_wireless_transmitted_dropped",
            "unifi_devices_wired_received_bytes", "unifi_devices_wired_transmitted_bytes",
            "unifi_devices_wired_received_packets", "unifi_devices_wired_transmitted_packets"] ∧
        smp.labels.head? = some siteLabel := by
  induction devices with
  | nil =>
    intro out h smp hs
    simp only [collectDeviceBytes, Option.some.injEq] at h
    subst h
    simp at hs
  | cons d rest ih =>
    intro out h smp hs
    rcases hdl : deviceLabels siteLabel d with _ | labels <;>
      rcases hrest : collectDeviceBytes siteLabel rest with _ | more <;>
        simp only [collectDeviceBytes, hdl, hrest, Option.some.injEq] at h <;>
          try exact Option.noConfusion h
    subst h
    rcases List.mem_append.1 hs with hs' | hs'
    · simp only [deviceBytesSamples, List.mem_cons, List.not_mem_nil, or_false] at hs'
      rcases hs' with rfl | rfl | rfl | rfl | rfl | rfl | rfl | rfl | rfl | rfl <;>
        exact ⟨by simp, deviceLabels_head hdl⟩
    · exact ih more hrest smp hs'

/-- Every sample of a successful radio sweep carries one of the three
station-count metric names and labels starting with the site label. -/
theorem radiosSamples_shape (siteLabel : String) (labels : List String)
    (hhead : labels.head? = some siteLabel) (radios : List Radio) :
    ∀ out, radiosSamples labels radios = some out →
      ∀ smp ∈ out,
        smp.metric ∈ ["unifi_devices_stations_total", "unifi_devices_stations_user",
          "unifi_devices_stations_guest"] ∧
        smp.labels.head? = some siteLabel := by
  induction radios with
  | nil =>
    intro out h smp hs
    simp only [radiosSamples, Option.some.injEq] at h
    subst h
    simp at hs
  | cons r rest ih =>
    intro out h smp hs
    rcases hr : radioStationsSamples labels r with _ | rsmp <;>
      rcases hrest : radiosSamples labels rest with _ | more <;>
        simp only [radiosSamples, hr, hrest, Option.some.injEq] at h <;>
          try exact Option.noConfusion h
    subst h
    rcases List.mem_append.1 hs with hs' | hs'
    · unfold radioStationsSamples at hr
      rcases hst : r.stats with _ | st <;> rw [hst] at hr
      · exact Option.noConfusion hr
      · simp only [Option.some.injEq] at hr
        subst hr
        simp only [List.mem_cons, List.not_mem_nil, or_false] at hs'
        rcases hs' with rfl | rfl | rfl <;>
          exact ⟨by simp, by simp [List.head?_append, hhead]⟩
    · exact ih more hrest smp hs'

/-- Every sample of a successful station-count sweep carries one of the
three station-count metric names and labels starting with the site
label. -/
theorem collectDeviceStations_shape (siteLabel : String) (devices : List Device) :
    ∀ out, collectDeviceStations siteLabel devices = some out →
      ∀ smp ∈ out,
        smp.metric ∈ ["unifi_devices_stations_total", "unifi_devices_stations_user",
          "unifi_devices_stations_guest"] ∧
        smp.labels.head? = some siteLabel := by
  induction devices with
  | nil =>
    intro out h smp hs
    simp only [collectDeviceStations, Option.some.injEq] at h
    subst h
    simp at hs
  | cons d rest ih =>
    intro out h smp hs
    cases hdl : deviceLabels siteLabel d with
    | none =>
      simp only [collectDeviceStations, hdl] at h
      exact Option.noConfusion h
    | some labels =>
    rcases hrad : radiosSamples labels d.radios with _ | rout <;>
      rcases hrest : collectDeviceStations siteLabel rest with _ | more <;>
        simp only [collectDeviceStations, hdl, hrad, hrest, Option.some.injEq] at h <;>
          try exact Option.noConfusion h
    subst h
    rcases List.mem_append.1 hs with hs' | hs'
    · exact radiosSamples_shape siteLabel labels (deviceLabels_head hdl) d.radios rout hrad smp hs'
    · exact ih more hrest smp hs'

/-- C5: a successful device sweep of one site emits the site-only count
sample valued at the device-list length, exactly one such count sample, and
the two adoption samples computed by the single `Adopted`-only scan, whose
values partition the list: adopted + unadopted = N. -/
theorem deviceCountSamples (site : Site) (devices : List Device) (out : List Sample)
    (h : deviceCollectSite site devices = some out) :
    Sample.mk "unifi_devices_total" [siteDescription site.description]
      (devices.length : ℚ) ∈ out ∧
    out.countP (fun smp => smp.metric = "unifi_devices_total") = 1 ∧
    Sample.mk "unifi_devices_adopted" [siteDescription site.description]
      ((deviceAdoptionCounts devices).1 : ℚ) ∈ out ∧
    Sample.mk "unifi_devices_unadopted" [siteDescription site.description]
      ((deviceAdoptionCounts devices).2 : ℚ) ∈ out ∧
    (deviceAdoptionCounts devices).1 = devices.countP (fun d => d.adopted) ∧
    (deviceAdoptionCounts devices).1 + (deviceAdoptionCounts devices).2 =
      devices.length := by
  simp only [deviceCollectSite] at h
  rcases hup : collectDeviceUptime (siteDescription site.description) devices with _ | up <;>
    rw [hup] at h <;> try exact Option.noConfusion h
  rcases hby : collectDeviceBytes (siteDescription site.description) devices with _ | bys <;>
    rw [hby] at h <;> try exact Option.noConfusion h
  rcases hst : collectDeviceStations (siteDescription site.description) devices with _ | sta <;>
    rw [hst] at h <;> try exact Option.noConfusion h
  simp only [Option.some.injEq] at h
  subst h
  have hcnt := deviceAdoptionCounts_spec devices
  refine ⟨List.mem_cons_self _ _, ?_, ?_, ?_, ?_, ?_⟩
  · rw [List.countP_cons]
    have hz :
        (collectDeviceAdoptions (siteDescription site.description) devices
            ++ up ++ bys ++ sta).countP
          (fun smp => smp.metric = "unifi_devices_total") = 0 := by
      rw [List.countP_eq_zero]
      intro smp hsm
      simp only [decide_eq_true_eq]
      rcases List.mem_append.1 hsm with h1 | h1
      · rcases List.mem_append.1 h1 with h2 | h2
        · rcases List.mem_append.1 h2 with h3 | h3
          · simp only [collectDeviceAdoptions, List.mem_cons, List.not_mem_nil,
              or_false] at h3
            rcases h3 with rfl | rfl <;> simp
          · have hm := (collectDeviceUptime_shape _ _ up hup smp h3).1
            rw [hm]; simp
        · have hm := (collectDeviceBytes_shape _ _ bys hby smp h2).1
          have hno : "unifi_devices_total" ∉
              ["unifi_devices_wireless_total_bytes", "unifi_devices_wireless_received_bytes",
                "unifi_devices_wireless_transmitted_bytes", "unifi_devices_wireless_received_packets",
                "unifi_devices_wireless_transmitted_packets", "unifi_devices_wireless_transmitted_dropped",
                "unifi_devices_wired_received_bytes", "unifi_devices_wired_transmitted_bytes",
                "unifi_devices_wired_received_packets", "unifi_devices_wired_transmitted_packets"] := by
            decide
          exact fun heq => hno (heq ▸ hm)
      · have hm := (collectDeviceStations_shape _ _ sta hst smp h1).1
        have hno : "unifi_devices_total" ∉
            ["unifi_devices_stations_total", "unifi_devices_stations_user",
              "unifi_devices_stations_guest"] := by decide
        exact fun heq => hno (heq ▸ hm)
    rw [hz]
    simp
  · apply List.mem_cons_of_mem
    refine List.mem_append.2 (Or.inl (List.mem_append.2 (Or.inl (List.mem_append.2 (Or.inl ?_)))))
    simp [collectDeviceAdoptions]
  · apply List.mem_cons_of_mem
    refine List.mem_append.2 (Or.inl (List.mem_append.2 (Or.inl (List.mem_append.2 (Or.inl ?_)))))
    simp [collectDeviceAdoptions]
  · rw [hcnt]
  · rw [hcnt]
    exact countP_adopted_sum devices

/-- C5 witness: the one-device fixture sweep emits its count sample with
value 1, and the adoption counts partition the single device. -/
theorem deviceCountSamples_witness :
    Sample.mk "unifi_devices_total" [siteDescription "Default"]
      (([devOk].length : ℚ)) ∈ devOkSamples ∧
    (deviceAdoptionCounts [devOk]).1 + (deviceAdoptionCounts [devOk]).2 = 1 :=
  ⟨(deviceCountSamples ⟨"default", "Default"⟩ [devOk] devOkSamples rfl).1,
    (deviceCountSamples ⟨"default", "Default"⟩ [devOk] devOkSamples rfl).2.2.2.2.2⟩

/-- C9 counterexample: the device sweep of a site described `Default`
labels every sample `default` — the normalized, not the verbatim,
description. -/
theorem siteLabel_not_verbatim :
    deviceCollectSite ⟨"default", "Default"⟩ [] =
      some [⟨"unifi_devices_total", ["default"], 0⟩,
        ⟨"unifi_devices_adopted", ["default"], 0⟩,
        ⟨"unifi_devices_unadopted", ["default"], 0⟩] ∧
    ("default" : String) ≠ "Default" :=
  ⟨rfl, by decide⟩

/-- C9 (amended): every sample of the station collector carries the site
description verbatim as its `site` label, while every sample of the device
collector carries the `siteDescription`-normalized description
(lower-cased, with space/hyphen/underscore/dot removed). -/
theorem siteLabelPolicy :
    (∀ (site : Site) (stations : List Station), ∀ smp ∈ stationCollectSite site stations,
        smp.labels.head? = some site.description) ∧
    (∀ (site : Site) (devices : List Device) (out : List Sample),
        deviceCollectSite site devices = some out → ∀ smp ∈ out,
          smp.labels.head? = some (siteDescription site.description)) := by
  constructor
  · intro site stations smp h
    unfold stationCollectSite at h
    rcases List.mem_cons.1 h with rfl | h
    · rfl
    · rcases List.mem_append.1 h with h | h
      · unfold collectStationBytes at h
        obtain ⟨s, _, hmem⟩ := List.mem_flatMap.1 h
        simp only [stationBytesSamples, List.mem_cons, List.not_mem_nil, or_false] at hmem
        rcases hmem with rfl | rfl | rfl | rfl <;> rfl
      · unfold collectStationSignal at h
        obtain ⟨s, _, hmem⟩ := List.mem_flatMap.1 h
        unfold stationSignalSamples at hmem
        split_ifs at hmem
        · simp at hmem
        · simp only [List.mem_cons, List.not_mem_nil, or_false] at hmem
          rcases hmem with rfl | rfl <;> rfl
  · intro site devices out h smp hmem
    simp only [deviceCollectSite] at h
    rcases hup : collectDeviceUptime (siteDescription site.description) devices with _ | up <;>
      rw [hup] at h <;> try exact Option.noConfusion h
    rcases hby : collectDeviceBytes (siteDescription site.description) devices with _ | bys <;>
      rw [hby] at h <;> try exact Option.noConfusion h
    rcases hst : collectDeviceStations (siteDescription site.description) devices with _ | sta <;>
      rw [hst] at h <;> try exact Option.noConfusion h
    simp only [Option.some.injEq] at h
    subst h
    rcases List.mem_cons.1 hmem with rfl | hmem
    · rfl
    · rcases List.mem_append.1 hmem with h1 | h1
      · rcases List.mem_append.1 h1 with h2 | h2
        · rcases List.mem_append.1 h2 with h3 | h3
          · simp only [collectDeviceAdoptions, List.mem_cons, List.not_mem_nil,
              or_false] at h3
            rcases h3 with rfl | rfl <;> rfl
          · exact (collectDeviceUptime_shape _ _ up hup smp h3).2
        · exact (collectDeviceBytes_shape _ _ bys hby smp h2).2
      · exact (collectDeviceStations_shape _ _ sta hst smp h1).2

/-- C9 witness: the station count sample of a site described `Default`
carries `Default` verbatim, while the device count sample of the fixture
sweep carries the normalized label. -/
theorem siteLabelPolicy_witness :
    (Sample.mk "unifi_stations" ["Default"] 0).labels.head? = some "Default" ∧
    (Sample.mk "unifi_devices_total" ["default"] 1).labels.head? =
      some (siteDescription "Default") :=
  ⟨siteLabelPolicy.1 ⟨"default", "Default"⟩ [] _ (by decide),
    siteLabelPolicy.2 ⟨"default", "Default"⟩ [devOk] devOkSamples rfl _ (by decide)⟩

/-- Decoding a JSON number into a `float64` field always succeeds with the
literal's value. -/
theorem decodeFloat64_eq (n : JsonNum) : decodeFloat64 n = some (jsonNumVal n) := by
  cases n <;> rfl

/-- The station counter samples carry the station's four counters, in
emission order. -/
theorem stationBytesSamples_values (siteLabel : String) (st : Station) :
    (stationBytesSamples siteLabel st).map Sample.value =
      [(st.stats.receiveBytes : ℚ), (st.stats.transmitBytes : ℚ),
        (st.stats.receivePackets : ℚ), (st.stats.transmitPackets : ℚ)] := rfl

/-- A successfully decoded station carries the raw record's counters. -/
theorem unmarshalStation_stats {raw : RawStation} {st : Station}
    (h : unmarshalStation raw = Except.ok st) :
    st.stats = ⟨raw.rxBytes, raw.rxPackets, raw.txBytes, raw.txPackets⟩ := by
  simp only [unmarshalStation] at h
  split_ifs at h
  rcases hm : parseMAC raw.mac with _ | m <;> rw [hm] at h
  · exact Except.noConfusion h
  · injection h with h'
    subst h'
    rfl

/-- C8 counterexample: a station counter written as the floating-point
literal `100.5` fails the outer decode (the raw `station` field is
`int64`), whereas the same literal in a device `stat` field (a `float64`)
is accepted. -/
theorem stationCounter_rejects_float :
    decodeStationCounters
      ⟨JsonNum.floatLit (201 / 2), JsonNum.intLit 1, JsonNum.intLit 20,
        JsonNum.intLit 2⟩ rawWiredBadAp = none ∧
    decodeDeviceStat
      ⟨JsonNum.floatLit (201 / 2), JsonNum.intLit 80, JsonNum.intLit 4,
        JsonNum.intLit 20, JsonNum.intLit 1, JsonNum.intLit 1⟩ rawDevNoNics.stat ≠
      none :=
  ⟨rfl, by decide⟩

/-- C8 (amended): device `stat` counters (`float64` fields) accept integer
and floating-point literals alike and the sample values equal the decoded
numbers; station counters (`int64` fields) accept only integer literals —
a floating-point literal fails the station decode — and on success the
sample values equal the literals. -/
theorem numericLiteralPolicy :
    (∀ (l : DeviceStatLits) (rest : RawDeviceStat),
        ∃ s, decodeDeviceStat l rest = some s ∧
          s.bytes = jsonNumVal l.bytes ∧ s.rxBytes = jsonNumVal l.rxBytes ∧
          s.rxPackets = jsonNumVal l.rxPackets ∧ s.txBytes = jsonNumVal l.txBytes ∧
          s.txDropped = jsonNumVal l.txDropped ∧ s.txPackets = jsonNumVal l.txPackets) ∧
    (∀ (raw : RawDevice) (d : Device) (labels : List String),
        unmarshalDevice raw = Except.ok d →
          (deviceBytesSamples labels d).map Sample.value =
            [raw.stat.bytes, raw.stat.rxBytes, raw.stat.txBytes, raw.stat.rxPackets,
              raw.stat.txPackets, raw.stat.txDropped, raw.uplink.rxBytes,
              raw.uplink.txBytes, raw.uplink.rxPackets, raw.uplink.txPackets]) ∧
    (∀ (l : StationCounterLits) (rest : RawStation),
        (decodeStationCounters l rest).isSome = true ↔
          ((∃ i, l.rxBytes = JsonNum.intLit i) ∧ (∃ i, l.rxPackets = JsonNum.intLit i) ∧
            (∃ i, l.txBytes = JsonNum.intLit i) ∧ (∃ i, l.txPackets = JsonNum.intLit i))) ∧
    (∀ (l : StationCounterLits) (rest raw : RawStation) (st : Station) (siteLabel : String),
        decodeStationCounters l rest = some raw →
        unmarshalStation raw = Except.ok st →
          (stationBytesSamples siteLabel st).map Sample.value =
            [jsonNumVal l.rxBytes, jsonNumVal l.txBytes, jsonNumVal l.rxPackets,
              jsonNumVal l.txPackets]) := by
  refine ⟨?_, ?_, ?_, ?_⟩
  · intro l rest
    obtain ⟨b, rb, rp, tb, td, tp⟩ := l
    cases b <;> cases rb <;> cases rp <;> cases tb <;> cases td <;> cases tp <;>
      exact ⟨_, rfl, rfl, rfl, rfl, rfl, rfl, rfl⟩
  · intro raw d labels h
    unfold unmarshalDevice at h
    rcases hip : parseIPv4 raw.informIP with _ | ip <;> rw [hip] at h <;>
      try exact Except.noConfusion h
    rcases hu : urlParse raw.informURL with _ | u <;> rw [hu] at h <;>
      try exact Except.noConfusion h
    rcases hn : parseNICs raw.ethernetTable with e | nics <;> rw [hn] at h <;>
      try exact Except.noConfusion h
    injection h with h'
    subst h'
    rfl
  · intro l rest
    obtain ⟨rb, rp, tb, tp⟩ := l
    cases rb <;> cases rp <;> cases tb <;> cases tp <;>
      simp [decodeStationCounters, decodeInt64]
  · intro l rest raw st siteLabel hdec hok
    obtain ⟨rb, rp, tb, tp⟩ := l
    cases rb <;> cases rp <;> cases tb <;> cases tp <;>
      simp only [decodeStationCounters, decodeInt64, Option.some.injEq] at hdec <;>
        try exact Option.noConfusion hdec
    subst hdec
    rw [stationBytesSamples_values, unmarshalStation_stats hok]
    rfl

/-- C8 witness: integer literals `1,2,3,4` survive decode, station
construction and sample emission unchanged, and the fixture device's
counters reach its samples unchanged. -/
theorem numericLiteralPolicy_witness :
    (stationBytesSamples "Default" stWiredBadAp).map Sample.value =
      [jsonNumVal (JsonNum.intLit 1), jsonNumVal (JsonNum.intLit 3),
        jsonNumVal (JsonNum.intLit 2), jsonNumVal (JsonNum.intLit 4)] ∧
    (deviceBytesSamples ["default"] devXX).map Sample.value =
      [rawDevXX.stat.bytes, rawDevXX.stat.rxBytes, rawDevXX.stat.txBytes,
        rawDevXX.stat.rxPackets, rawDevXX.stat.txPackets, rawDevXX.stat.txDropped,
        rawDevXX.uplink.rxBytes, rawDevXX.uplink.txBytes, rawDevXX.uplink.rxPackets,
        rawDevXX.uplink.txPackets] :=
  ⟨numericLiteralPolicy.2.2.2
      ⟨JsonNum.intLit 1, JsonNum.intLit 2, JsonNum.intLit 3, JsonNum.intLit 4⟩
      rawWiredBadAp rawWiredBadAp stWiredBadAp "Default" rfl rfl,
    numericLiteralPolicy.2.1 rawDevXX devXX ["default"] rfl⟩

/-- `Exporter.Collect` against an always-successful `ClientFunc` rebuilding
to `cs`, from any captured slice, live field and login count. -/
theorem collectFrom_const_some (cs : List SimCollector) :
    ∀ (st cur : List SimCollector) (k : Nat),
      collectFrom (fun _ => some cs) st cur k =
        ⟨st.flatMap (fun c => c.emits),
          if st.any (fun c => c.fails) then cs else cur,
          k + st.countP (fun c => c.fails), false⟩ := by
  intro st
  induction st with
  | nil => intro cur k; simp [collectFrom]
  | cons c rest ih =>
    intro cur k
    rcases hc : c.fails with _ | _
    · simp [collectFrom, hc, ih, List.countP_cons, List.any_cons]
    · simp [collectFrom, hc, ih, List.countP_cons, List.any_cons]
      omega

/-- `Exporter.Collect` against an always-failing `ClientFunc`: the first
failing collector triggers one login attempt and an immediate return. -/
theorem collectFrom_login_failure :
    ∀ (pre : List SimCollector) (c : SimCollector) (post cur : List SimCollector) (k : Nat),
      (∀ x ∈ pre, x.fails = false) → c.fails = true →
      collectFrom (fun _ => none) (pre ++ c :: post) cur k =
        ⟨pre.flatMap (fun x => x.emits) ++ c.emits, cur, k + 1, true⟩ := by
  intro pre
  induction pre with
  | nil =>
    intro c post cur k _ hc
    simp [collectFrom, hc]
  | cons p rest ih =>
    intro c post cur k hpre hc
    have hp : p.fails = false := hpre p (List.mem_cons_self p rest)
    have hrest : ∀ x ∈ rest, x.fails = false :=
      fun x hx => hpre x (List.mem_cons_of_mem p hx)
    simp [collectFrom, hp, ih c post cur k hrest hc]

/-- C1 counterexample: with two failing collectors and always-successful
logins, a single `Collect` invocation attempts two logins, not exactly
one — `initClient` runs once per failing collector of the captured
slice. -/
theorem exporterReauth_counterexample :
    ([(⟨["m1"], true⟩ : SimCollector), ⟨["m2"], true⟩].any (fun c => c.fails) = true) ∧
    (exporterCollect (fun _ => some []) [⟨["m1"], true⟩, ⟨["m2"], true⟩]).logins = 2 :=
  ⟨rfl, rfl⟩

/-- C1 (amended): one fresh login + rebuild is attempted per *failing
collector* (not per invocation). When every login succeeds, `Collect` runs
exactly the collectors captured at entry (the rebuilt ones emit nothing
this cycle and become the set for future scrapes) and attempts as many
logins as there are failing collectors; when the re-login fails, `Collect`
returns at once after the first failing collector — nothing further is
emitted, one login was attempted and the collector set is unchanged. -/
theorem exporterReauth :
    (∀ (cs st : List SimCollector),
      exporterCollect (fun _ => some cs) st =
        ⟨st.flatMap (fun c => c.emits),
          if st.any (fun c => c.fails) then cs else st,
          st.countP (fun c => c.fails), false⟩) ∧
    (∀ (pre : List SimCollector) (c : SimCollector) (post : List SimCollector),
      (∀ x ∈ pre, x.fails = false) → c.fails = true →
      exporterCollect (fun _ => none) (pre ++ c :: post) =
        ⟨pre.flatMap (fun x => x.emits) ++ c.emits, pre ++ c :: post, 1, true⟩) := by
  constructor
  · intro cs st
    unfold exporterCollect
    rw [collectFrom_const_some]
    simp
  · intro pre c post hpre hc
    unfold exporterCollect
    rw [collectFrom_login_failure pre c post (pre ++ c :: post) 0 hpre hc]

/-- C1 witness: a single failing collector with a successful re-login
yields one login and a rebuilt set for future scrapes; with a failing
re-login, `Collect` aborts after one login, leaving the set unchanged. -/
theorem exporterReauth_witness :
    exporterCollect (fun _ => some []) [⟨["m1"], true⟩] = ⟨["m1"], [], 1, false⟩ ∧
    exporterCollect (fun _ => none) [⟨["m1"], true⟩] =
      ⟨["m1"], [⟨["m1"], true⟩], 1, true⟩ := by
  constructor
  · have h := exporterReauth.1 [] [⟨["m1"], true⟩]
    simpa using h
  · have h := exporterReauth.2 [] ⟨["m1"], true⟩ [] (by simp) rfl
    simpa using h

end UnifiExporter
